import Mathlib

/-!
Shallow embedding of `src/dashboard-streamlit/asiangames_dashboard_streamlit.py`
(an Asian Games medal dashboard): loading and normalising the spreadsheet rows,
the year/country filter, and the five view-building transforms, together with
theorems checking the specification's claims about them.
-/

/-- The characters matched by the regex class `\s` in the pattern at
line 25 of the script. On Python `str` this is the CPython
`Py_UNICODE_ISSPACE` set: the ASCII whitespace `\t\n\v\f\r`, space, the
separators U+001C-U+001F, and the Unicode whitespace characters U+0085,
U+00A0 (no-break space), U+1680, U+2000-U+200A, U+2028, U+2029, U+202F,
U+205F and U+3000. The same set is what Python `int()` strips around a
numeral. -/
def isSpaceChar (c : Char) : Bool :=
  (0x09 ≤ c.toNat && c.toNat ≤ 0x0d) ||
  (0x1c ≤ c.toNat && c.toNat ≤ 0x1f) ||
  c.toNat == 0x20 || c.toNat == 0x85 || c.toNat == 0xa0 ||
  c.toNat == 0x1680 ||
  (0x2000 ≤ c.toNat && c.toNat ≤ 0x200a) ||
  c.toNat == 0x2028 || c.toNat == 0x2029 ||
  c.toNat == 0x202f || c.toNat == 0x205f || c.toNat == 0x3000

/-- Engine of the regex `^(.*?)\s\(` from
`df['Country'] = df['NOC'].str.extract(r'^(.*?)\s\(')` (line 25).
Non-greedy scan from the left: at each position first try to match one
whitespace character followed by a literal `(` (ending the capture);
otherwise let `.` consume one character, failing on a newline
(`.` does not match `\n`). `acc` holds the captured prefix reversed. -/
def extractAux : List Char → List Char → Option (List Char)
  | acc, c1 :: c2 :: rest =>
    if isSpaceChar c1 && c2 == '(' then some acc.reverse
    else if c1 == '\n' then none
    else extractAux (c1 :: acc) (c2 :: rest)
  | _, _ => none

/-- `Country` derivation from the `NOC` cell, line 25 of the script:
the capture group of `^(.*?)\s\(`, `none` when the pattern does not match
(pandas leaves NaN). -/
def extractCountry (s : String) : Option String :=
  (extractAux [] s.data).map String.mk

/-- All-digit parse of a nonempty character list (the digit core of Python
`int(...)`). -/
def parseDigits (cs : List Char) : Option Nat :=
  if cs ≠ [] ∧ cs.all Char.isDigit then
    some (cs.foldl (fun a c => a * 10 + (c.toNat - 48)) 0)
  else none

/-- Strip leading and trailing whitespace. -/
def trimSpaces (cs : List Char) : List Char :=
  ((cs.dropWhile isSpaceChar).reverse.dropWhile isSpaceChar).reverse

/-- Python `int(s)` on a string cell: optional surrounding whitespace,
optional sign, then digits; anything else raises (`none`). This is what
`astype(int)` (line 26) applies to a string-valued `Year` cell. -/
def pyInt (s : String) : Option Int :=
  match trimSpaces s.data with
  | '+' :: rest => (parseDigits rest).map Int.ofNat
  | '-' :: rest => (parseDigits rest).map fun n => -(n : Int)
  | rest => (parseDigits rest).map Int.ofNat

/-- A raw `Year` cell as delivered by `get_as_dataframe` (line 24): an already
numeric cell, a textual cell, or an empty cell (NaN). -/
inductive YearCell where
  | num (n : Int)
  | text (s : String)
  | blank
deriving DecidableEq

/-- `astype(int)` (line 26) on one `Year` cell: numeric cells pass through,
text cells go through Python `int`, an empty cell (NaN) cannot be converted
(`none` = raises). -/
def parseYearCell : YearCell → Option Int
  | .num n => some n
  | .text s => pyInt s
  | .blank => none

def YearCell.isBlank : YearCell → Bool
  | .blank => true
  | _ => false

/-- One raw spreadsheet row as fetched by `get_as_dataframe` (line 24):
each field may be empty (NaN). -/
structure RawRow where
  noc : Option String
  year : YearCell
  gold : Option Int
  silver : Option Int
  bronze : Option Int
  total : Option Int
deriving DecidableEq

/-- A row is entirely empty when every field is absent; `dropna(how="all")`
(line 24) removes exactly these. -/
def RawRow.allEmpty (r : RawRow) : Bool :=
  r.noc.isNone && r.year.isBlank && r.gold.isNone && r.silver.isNone &&
    r.bronze.isNone && r.total.isNone

/-- `dropna(how="all")` (line 24). -/
def dropAllEmpty (rs : List RawRow) : List RawRow :=
  rs.filter fun r => !r.allEmpty

/-- One row of the canonical table produced by `load_data` (lines 15-27):
`country` is derived from `noc` (NaN when the pattern fails or `noc` is NaN),
`year` has been coerced to an integer, the medal cells pass through as-is. -/
structure Row where
  noc : Option String
  country : Option String
  year : Int
  gold : Option Int
  silver : Option Int
  bronze : Option Int
  total : Option Int
deriving DecidableEq

/-- The per-row work of lines 25-26: derive `Country` from `NOC`
(`str.extract` maps a NaN cell to NaN) and coerce `Year`. The `getD 0`
never fires on the success path of `load_data`, which checks first that
every retained year converts. -/
def normalizeRow (r : RawRow) : Row :=
  ⟨r.noc, r.noc.bind extractCountry, (parseYearCell r.year).getD 0,
    r.gold, r.silver, r.bronze, r.total⟩

/-- `load_data` (lines 15-27) restricted to its data shaping: drop entirely
empty rows, derive `Country`, coerce `Year` with `astype(int)`; if any
retained row's year does not convert, `astype` raises and the load fails
with no partial table. -/
def load_data (rs : List RawRow) : Except String (List Row) :=
  let kept := dropAllEmpty rs
  if kept.all fun r => (parseYearCell r.year).isSome then
    Except.ok (kept.map normalizeRow)
  else Except.error "LoadError"

/-- The sidebar filter state (lines 36-37): the lists returned by the two
multiselect widgets. -/
structure Selection where
  years : List Int
  countries : List String
deriving DecidableEq

/-- The row predicate of line 39:
`(df['Year'].isin(selected_years)) & (df['Country'].isin(selected_countries))`.
A NaN `Country` matches no `isin` list. -/
def matchesSel (S : Selection) (r : Row) : Bool :=
  decide (r.year ∈ S.years) &&
    match r.country with
    | some c => decide (c ∈ S.countries)
    | none => false

/-- `filtered_df = df[...]` (line 39): keep the rows satisfying both
membership tests, in table order. -/
def filtered_df (T : List Row) (S : Selection) : List Row :=
  T.filter (matchesSel S)

/-- The defined (non-NaN) countries of a table, in table order and with
repetitions; `df['Country'].dropna()` (line 34). -/
def definedCountries (T : List Row) : List String :=
  T.filterMap (·.country)

def sortStrings (l : List String) : List String :=
  List.insertionSort (· ≤ ·) l

def sortInts (l : List Int) : List Int :=
  List.insertionSort (· ≤ ·) l

/-- The defaults of the two multiselect widgets (lines 33-37):
`years = sorted(df['Year'].unique())` and
`countries = sorted(df['Country'].dropna().unique())`. -/
def defaultSelection (T : List Row) : Selection :=
  ⟨sortInts (T.map (·.year)).dedup, sortStrings (definedCountries T).dedup⟩

/-- Membership of a row in the group keyed by country `c`; pandas `groupby`
and `pivot_table` drop rows whose key is NaN, so a row with an undefined
country belongs to no group. -/
def inGroup (c : String) (r : Row) : Bool :=
  decide (r.country = some c)

/-- Sum of the `Gold` cells of the rows grouped under country `c`
(pandas group sums skip NaN, i.e. treat an absent cell as 0). -/
def sumGold (T : List Row) (c : String) : Int :=
  ((T.filter (inGroup c)).map fun r => r.gold.getD 0).sum

/-- Sum of the `Silver` cells of the rows grouped under country `c`. -/
def sumSilver (T : List Row) (c : String) : Int :=
  ((T.filter (inGroup c)).map fun r => r.silver.getD 0).sum

/-- Sum of the `Bronze` cells of the rows grouped under country `c`. -/
def sumBronze (T : List Row) (c : String) : Int :=
  ((T.filter (inGroup c)).map fun r => r.bronze.getD 0).sum

/-- One row of the `total_medals` frame (lines 73-81): a country with its
summed medal columns and the assigned `Total`. -/
structure TopEntry where
  country : String
  gold : Int
  silver : Int
  bronze : Int
  total : Int
deriving DecidableEq

/-- The frame after `groupby('Country')[['Gold','Silver','Bronze']].sum()`
and `.assign(Total=...)` (lines 74-76): one entry per distinct defined
country (groupby sorts its keys), carrying the three group sums and their
assigned total. -/
def groupEntries (T : List Row) : List TopEntry :=
  (sortStrings (definedCountries T).dedup).map fun c =>
    ⟨c, sumGold T c, sumSilver T c, sumBronze T c,
      sumGold T c + sumSilver T c + sumBronze T c⟩

/-- Descending comparison on the assigned totals, the key of
`.sort_values('Total', ascending=False)` (line 77). -/
def totalDesc (a b : TopEntry) : Prop :=
  b.total ≤ a.total

instance : DecidableRel totalDesc := fun a b =>
  inferInstanceAs (Decidable (b.total ≤ a.total))

instance : IsTotal TopEntry totalDesc :=
  ⟨fun a b => le_total b.total a.total⟩

instance : IsTrans TopEntry totalDesc :=
  ⟨fun _ _ _ h1 h2 => le_trans h2 h1⟩

/-- `total_medals` (lines 73-81): group by country, sum the medal columns,
assign `Total`, sort descending by `Total` and keep the first 3.
The relative order of tied totals is not fixed by the source
(pandas `sort_values` defaults to an unstable quicksort); the insertion
sort used here chooses one possible order. -/
def total_medals (T : List Row) : List TopEntry :=
  (List.insertionSort totalDesc (groupEntries T)).take 3

/-- One row of the long-form frame produced by `melt` (lines 64-65). -/
structure MeltRow where
  year : Int
  country : Option String
  medal : String
  count : Option Int
deriving DecidableEq

/-- One melted copy of a row for a given medal column. -/
def meltOne (m : String) (f : Row → Option Int) (r : Row) : MeltRow :=
  ⟨r.year, r.country, m, f r⟩

/-- `df_melt` (lines 64-65): `melt(id_vars=['Year','Country'],
value_vars=['Gold','Silver','Bronze'], ...)` stacks one block per value
variable, in the order given, each block listing every input row. -/
def df_melt (T : List Row) : List MeltRow :=
  T.map (meltOne "Gold" (·.gold)) ++ T.map (meltOne "Silver" (·.silver)) ++
    T.map (meltOne "Bronze" (·.bronze))

/-- Row labels of `heatmap_df` (line 107): the distinct defined countries,
sorted (`pivot_table` drops NaN keys and sorts the index). -/
def heatCountries (T : List Row) : List String :=
  sortStrings (definedCountries T).dedup

/-- The rows that `pivot_table` keeps: those with a defined country key. -/
def pivotRows (T : List Row) : List Row :=
  T.filter fun r => r.country.isSome

/-- Column labels of `heatmap_df` (line 107): the distinct years among the
rows with a defined country, sorted ascending. -/
def heatYears (T : List Row) : List Int :=
  sortInts ((pivotRows T).map (·.year)).dedup

/-- One cell of the pivot: the sum of `Total` over the rows with the given
country and year (NaN cells sum as 0); a (country, year) pair with no
matching rows sums over the empty list, which is the `0` that
`.fillna(0)` puts where the pivot had no group. -/
def cellSum (T : List Row) (c : String) (y : Int) : Int :=
  ((T.filter fun r => inGroup c r && decide (r.year = y)).map
    fun r => r.total.getD 0).sum

/-- `heatmap_df` (line 107):
`pivot_table(index='Country', columns='Year', values='Total',
aggfunc='sum').fillna(0)` as a dense grid, one row per label of
`heatCountries`, one column per label of `heatYears`. -/
def heatmap_df (T : List Row) : List (List Int) :=
  (heatCountries T).map fun c => (heatYears T).map fun y => cellSum T c y

/-- Modelled from the spec: the Remote Table Gateway's
`replace(rows) → success|error` operation invoked through
`set_with_dataframe(sheet, edited_df)` (line 46). The gateway is an
external collaborator whose code is not part of this repository; the spec
gives its contract as replacing the entire contents of the remote store
with the supplied table verbatim. -/
def replaceStore (_store edited : List Row) : List Row :=
  edited

/-- The save handler (lines 45-47): on the button trigger, push the edited
table to the gateway, overwriting the remote store. -/
def saveEdit (store edited : List Row) : List Row :=
  replaceStore store edited

/-- Unfolding of the line-39 predicate: a row passes iff its year is
selected and its country is defined and selected. -/
lemma matchesSel_eq_true_iff (S : Selection) (r : Row) :
    matchesSel S r = true ↔
      r.year ∈ S.years ∧ ∃ c, r.country = some c ∧ c ∈ S.countries := by
  unfold matchesSel
  cases r.country <;> simp

/-- C2. Filter Engine correctness: every row of `filtered_df T S` satisfies
the conjunctive year/country membership predicate; every row of `T`
satisfying it appears in the output; and the output is a sublist of `T`
(same relative order). `filtered_df` is a pure function of `T` and `S`,
so `T` is unchanged by construction. -/
theorem filter_engine_correct (T : List Row) (S : Selection) :
    (∀ r ∈ filtered_df T S,
        r.year ∈ S.years ∧ ∃ c, r.country = some c ∧ c ∈ S.countries)
  ∧ (∀ r ∈ T,
        (r.year ∈ S.years ∧ ∃ c, r.country = some c ∧ c ∈ S.countries) →
          r ∈ filtered_df T S)
  ∧ (filtered_df T S).Sublist T := by
  refine ⟨?_, ?_, List.filter_sublist T⟩
  · intro r hr
    rw [filtered_df, List.mem_filter] at hr
    exact (matchesSel_eq_true_iff S r).mp hr.2
  · intro r hrT hp
    rw [filtered_df, List.mem_filter]
    exact ⟨hrT, (matchesSel_eq_true_iff S r).mpr hp⟩

/-- Witness for C2 on a concrete table and selection. -/
theorem filter_engine_correct_witness :
    (⟨some "China (CHN)", some "China", 2018, some 3, some 1, some 0, some 4⟩ : Row) ∈
      filtered_df
        [⟨some "China (CHN)", some "China", 2018, some 3, some 1, some 0, some 4⟩,
         ⟨some "Japan (JPN)", some "Japan", 2014, some 1, some 2, some 1, some 4⟩]
        ⟨[2018], ["China"]⟩ :=
  (filter_engine_correct
      [⟨some "China (CHN)", some "China", 2018, some 3, some 1, some 0, some 4⟩,
       ⟨some "Japan (JPN)", some "Japan", 2014, some 1, some 2, some 1, some 4⟩]
      ⟨[2018], ["China"]⟩).2.1 _ (by decide) (by decide)

/-- C10. Every row of `filtered_df` has a defined country — for any
selection, in particular the default one — and the country domain offered
by the sidebar is built only from defined countries of the table. -/
theorem filtered_country_defined (T : List Row) (S : Selection) :
    (∀ r ∈ filtered_df T S, ∃ c, r.country = some c)
  ∧ (∀ r ∈ filtered_df T (defaultSelection T), ∃ c, r.country = some c)
  ∧ (∀ c ∈ (defaultSelection T).countries, ∃ r ∈ T, r.country = some c) := by
  have base : ∀ S0 : Selection, ∀ r ∈ filtered_df T S0, ∃ c, r.country = some c := by
    intro S0 r hr
    rw [filtered_df, List.mem_filter] at hr
    obtain ⟨-, c, hc, -⟩ := (matchesSel_eq_true_iff S0 r).mp hr.2
    exact ⟨c, hc⟩
  refine ⟨base S, base _, ?_⟩
  intro c hc
  have : c ∈ (definedCountries T).dedup := by
    have hperm := List.perm_insertionSort
      (α := String) (· ≤ ·) (definedCountries T).dedup
    exact hperm.mem_iff.mp hc
  rw [List.mem_dedup, definedCountries, List.mem_filterMap] at this
  exact this

/-- Witness for C10 on a concrete table. -/
theorem filtered_country_defined_witness :
    ∃ c, (⟨some "China (CHN)", some "China", 2018, some 3, some 1, some 0, some 4⟩ : Row).country
      = some c :=
  (filtered_country_defined
      [⟨some "China (CHN)", some "China", 2018, some 3, some 1, some 0, some 4⟩]
      ⟨[2018], ["China"]⟩).1 _ (by decide)

/-- C1. Edit Reconciler save: the remote store after a save equals the
edited table verbatim (full overwrite, no merge), so any row the active
filter excludes from `filtered_df T S` is absent from the store after
saving that filtered subset. -/
theorem edit_reconciler_overwrite (store T edited : List Row) (S : Selection) :
    saveEdit store edited = edited
  ∧ ∀ r : Row, matchesSel S r = false →
      r ∉ saveEdit store (filtered_df T S) := by
  refine ⟨rfl, ?_⟩
  intro r hr hmem
  rw [saveEdit, replaceStore, filtered_df, List.mem_filter] at hmem
  rw [hmem.2] at hr
  exact Bool.true_eq_false.mp hr

/-- Witness for C1: saving a year-2018-only filtered view loses the 2014
row from the remote store. -/
theorem edit_reconciler_overwrite_witness :
    (⟨some "Korea (KOR)", some "Korea", 2014, some 0, some 0, some 1, some 1⟩ : Row) ∉
      saveEdit
        [⟨some "Korea (KOR)", some "Korea", 2014, some 0, some 0, some 1, some 1⟩]
        (filtered_df
          [⟨some "China (CHN)", some "China", 2018, some 3, some 1, some 0, some 4⟩,
           ⟨some "Korea (KOR)", some "Korea", 2014, some 0, some 0, some 1, some 1⟩]
          ⟨[2018], ["China", "Korea"]⟩) :=
  (edit_reconciler_overwrite
      [⟨some "Korea (KOR)", some "Korea", 2014, some 0, some 0, some 1, some 1⟩]
      [⟨some "China (CHN)", some "China", 2018, some 3, some 1, some 0, some 4⟩,
       ⟨some "Korea (KOR)", some "Korea", 2014, some 0, some 0, some 1, some 1⟩]
      [] ⟨[2018], ["China", "Korea"]⟩).2 _ (by decide)

/-- C6. Trend long-form view: the melted frame has exactly `3n` rows for an
`n`-row input, and input row `i` yields exactly the three output rows at
positions `i`, `n + i` and `2n + i` — one per medal colour, with `year` and
`country` carried over and `count` equal to the corresponding medal cell.
The transform is `map`/append only; no aggregation occurs. -/
theorem trend_melt_shape (T : List Row) :
    (df_melt T).length = 3 * T.length
  ∧ ∀ i : Fin T.length,
      (df_melt T)[i.val]? = some (meltOne "Gold" (·.gold) (T.get i))
      ∧ (df_melt T)[T.length + i.val]? = some (meltOne "Silver" (·.silver) (T.get i))
      ∧ (df_melt T)[2 * T.length + i.val]? = some (meltOne "Bronze" (·.bronze) (T.get i)) := by
  constructor
  · simp [df_melt]
    ring
  · intro i
    have hg : (T.map (meltOne "Gold" (·.gold)))[i.val]? =
        some (meltOne "Gold" (·.gold) (T.get i)) := by
      rw [List.getElem?_map, List.getElem?_eq_getElem i.isLt]
      simp [List.get_eq_getElem]
    have hs : (T.map (meltOne "Silver" (·.silver)))[i.val]? =
        some (meltOne "Silver" (·.silver) (T.get i)) := by
      rw [List.getElem?_map, List.getElem?_eq_getElem i.isLt]
      simp [List.get_eq_getElem]
    have hb : (T.map (meltOne "Bronze" (·.bronze)))[i.val]? =
        some (meltOne "Bronze" (·.bronze) (T.get i)) := by
      rw [List.getElem?_map, List.getElem?_eq_getElem i.isLt]
      simp [List.get_eq_getElem]
    have hi := i.isLt
    refine ⟨?_, ?_, ?_⟩
    · rw [df_melt,
        List.getElem?_append_left (by simp; omega),
        List.getElem?_append_left (by simp)]
      exact hg
    · rw [df_melt,
        List.getElem?_append_left (by simp),
        List.getElem?_append_right (by simp), List.length_map,
        show T.length + i.val - T.length = i.val by omega]
      exact hs
    · rw [df_melt,
        List.getElem?_append_right (by simp; omega)]
      simp only [List.length_append, List.length_map]
      rw [show 2 * T.length + i.val - (T.length + T.length) = i.val by omega]
      exact hb

/-- C3. Top-N view: `total_medals` has `min 3 k` entries where `k` is the
number of distinct (defined) countries of the filtered table — so at most
3, exactly `k` when `k < 3`, and 0 for an empty input without error; its
totals are non-increasing in rank order; and every entry carries the
per-country sums of `gold`, `silver` and `bronze` over all filtered rows
of that country (across all years), with `total` assigned as their sum. -/
theorem topn_view_correct (T : List Row) :
    (total_medals T).length = min 3 (definedCountries T).dedup.length
  ∧ (total_medals T).Pairwise totalDesc
  ∧ ∀ e ∈ total_medals T,
      e.gold = sumGold T e.country ∧ e.silver = sumSilver T e.country ∧
      e.bronze = sumBronze T e.country ∧
      e.total = e.gold + e.silver + e.bronze := by
  refine ⟨?_, ?_, ?_⟩
  · rw [total_medals, List.length_take,
      (List.perm_insertionSort totalDesc (groupEntries T)).length_eq,
      groupEntries, List.length_map, sortStrings,
      (List.perm_insertionSort (· ≤ ·) (definedCountries T).dedup).length_eq]
  · exact ((List.sorted_insertionSort totalDesc (groupEntries T)).sublist
      (List.take_sublist 3 _))
  · intro e he
    have : e ∈ groupEntries T :=
      (List.perm_insertionSort totalDesc (groupEntries T)).mem_iff.mp
        ((List.take_sublist 3 _).subset he)
    rw [groupEntries, List.mem_map] at this
    obtain ⟨c, -, rfl⟩ := this
    exact ⟨rfl, rfl, rfl, rfl⟩

/-- Witness for C3 on a concrete one-country table spanning two years. -/
theorem topn_view_correct_witness :
    (⟨"China", 4, 3, 1, 8⟩ : TopEntry) ∈
      total_medals
        [⟨some "China (CHN)", some "China", 2014, some 1, some 2, some 1, some 4⟩,
         ⟨some "China (CHN)", some "China", 2018, some 3, some 1, some 0, some 4⟩]
  ∧ (⟨"China", 4, 3, 1, 8⟩ : TopEntry).gold =
      sumGold
        [⟨some "China (CHN)", some "China", 2014, some 1, some 2, some 1, some 4⟩,
         ⟨some "China (CHN)", some "China", 2018, some 3, some 1, some 0, some 4⟩]
        "China"
  ∧ (⟨"China", 4, 3, 1, 8⟩ : TopEntry).total = 4 + 3 + 1 :=
  ⟨by decide,
    ((topn_view_correct
      [⟨some "China (CHN)", some "China", 2014, some 1, some 2, some 1, some 4⟩,
       ⟨some "China (CHN)", some "China", 2018, some 3, some 1, some 0, some 4⟩]).2.2
      _ (by decide)).1,
    by decide⟩

/-- C5. Pivot (heatmap) view: the grid's row labels are the distinct
countries sorted, its column labels the distinct years sorted ascending
(both taken over the input table, whose rows all carry a defined country,
as every `filtered_df` does); the grid is dense — one integer row per
country label, one entry per year label — each cell being the sum of
`total` over the matching (country, year) rows; and any pair absent from
the table yields the cell value 0, never a missing cell. -/
theorem heatmap_view_correct (T : List Row)
    (hdef : ∀ r ∈ T, r.country.isSome = true) :
    (heatCountries T).Sorted (· ≤ ·) ∧ (heatCountries T).Nodup
  ∧ (heatYears T).Sorted (· ≤ ·) ∧ (heatYears T).Nodup
  ∧ heatYears T = sortInts (T.map (·.year)).dedup
  ∧ (∀ c, c ∈ heatCountries T ↔ ∃ r ∈ T, r.country = some c)
  ∧ (∀ y, y ∈ heatYears T ↔ ∃ r ∈ T, r.year = y)
  ∧ (heatmap_df T).length = (heatCountries T).length
  ∧ (∀ i : Fin (heatCountries T).length,
      ((heatmap_df T).getD i.val []).length = (heatYears T).length)
  ∧ (∀ i : Fin (heatCountries T).length, ∀ j : Fin (heatYears T).length,
      ((heatmap_df T).getD i.val []).getD j.val 0 =
        cellSum T ((heatCountries T).get i) ((heatYears T).get j))
  ∧ (∀ c y, (∀ r ∈ T, ¬(r.country = some c ∧ r.year = y)) →
      cellSum T c y = 0) := by
  have hpivot : pivotRows T = T := List.filter_eq_self.mpr hdef
  have hrowEq : ∀ i : Fin (heatCountries T).length,
      (heatmap_df T).getD i.val [] =
        (heatYears T).map fun y => cellSum T ((heatCountries T).get i) y := by
    intro i
    rw [heatmap_df, List.getD_eq_getElem?_getD, List.getElem?_map,
      List.getElem?_eq_getElem i.isLt]
    simp [List.get_eq_getElem]
  refine ⟨?_, ?_, ?_, ?_, ?_, ?_, ?_, ?_, ?_, ?_, ?_⟩
  · exact List.sorted_insertionSort _ _
  · exact (List.perm_insertionSort _ _).nodup_iff.mpr (List.nodup_dedup _)
  · exact List.sorted_insertionSort _ _
  · exact (List.perm_insertionSort _ _).nodup_iff.mpr (List.nodup_dedup _)
  · rw [heatYears, hpivot]
  · intro c
    rw [heatCountries, sortStrings, (List.perm_insertionSort _ _).mem_iff,
      List.mem_dedup, definedCountries, List.mem_filterMap]
  · intro y
    rw [heatYears, hpivot, sortInts, (List.perm_insertionSort _ _).mem_iff,
      List.mem_dedup, List.mem_map]
  · rw [heatmap_df, List.length_map]
  · intro i
    rw [hrowEq i, List.length_map]
  · intro i j
    rw [hrowEq i, List.getD_eq_getElem?_getD, List.getElem?_map,
      List.getElem?_eq_getElem j.isLt]
    simp [List.get_eq_getElem]
  · intro c y hcy
    rw [cellSum, List.filter_eq_nil_iff.mpr ?_]
    · rfl
    · intro r hr hp
      rw [Bool.and_eq_true, inGroup] at hp
      exact hcy r hr ⟨decide_eq_true_iff.mp hp.1, decide_eq_true_iff.mp hp.2⟩

/-- Witness for C5: a (country, year) pair missing from a concrete table
pivots to an explicit 0 cell. -/
theorem heatmap_view_correct_witness :
    cellSum
      [⟨some "China (CHN)", some "China", 2018, some 3, some 1, some 0, some 4⟩,
       ⟨some "Korea (KOR)", some "Korea", 2014, some 0, some 0, some 1, some 1⟩]
      "Korea" 2018 = 0 :=
  (heatmap_view_correct
      [⟨some "China (CHN)", some "China", 2018, some 3, some 1, some 0, some 4⟩,
       ⟨some "Korea (KOR)", some "Korea", 2014, some 0, some 0, some 1, some 1⟩]
      (by decide)).2.2.2.2.2.2.2.2.2.2 "Korea" 2018 (by decide)

/-- C8. Year coercion: after the entirely-empty rows are dropped, the load
fails with the fatal `LoadError` exactly when some retained row's `Year`
does not convert to an integer — and then no table (not even a partial
one) is produced; otherwise every retained row is present with its stored
year equal to the parsed integer exactly. -/
theorem year_coercion (rs : List RawRow) :
    ((∃ r ∈ dropAllEmpty rs, parseYearCell r.year = none) ↔
        load_data rs = Except.error "LoadError")
  ∧ ((∀ r ∈ dropAllEmpty rs, (parseYearCell r.year).isSome = true) →
        load_data rs = Except.ok ((dropAllEmpty rs).map normalizeRow)
        ∧ ∀ r ∈ dropAllEmpty rs,
            parseYearCell r.year = some (normalizeRow r).year) := by
  constructor
  · rw [load_data]
    cases hall : (dropAllEmpty rs).all fun r => (parseYearCell r.year).isSome with
    | true =>
      rw [List.all_eq_true] at hall
      simp only [if_true]
      constructor
      · rintro ⟨r, hr, hnone⟩
        have hsome := hall r hr
        rw [hnone] at hsome
        exact absurd hsome (by simp)
      · intro h
        exact Except.noConfusion h
    | false =>
      rw [if_neg (by simp)]
      constructor
      · intro _
        rfl
      · intro _
        have : ¬ ∀ r ∈ dropAllEmpty rs, ((parseYearCell r.year).isSome = true) := by
          rw [← List.all_eq_true]
          simp [hall]
        push_neg at this
        obtain ⟨r, hr, hray⟩ := this
        exact ⟨r, hr, Option.not_isSome_iff_eq_none.mp (by simpa using hray)⟩
  · intro hall
    constructor
    · rw [load_data, if_pos (List.all_eq_true.mpr hall)]
    · intro r hr
      obtain ⟨n, hn⟩ := Option.isSome_iff_exists.mp (hall r hr)
      rw [normalizeRow]
      simp [hn]

/-- Witness for C8: a retained textual year fails the load; an all-numeric
table loads with the years stored as parsed. -/
theorem year_coercion_witness :
    load_data [⟨some "China (CHN)", .text "20l8", some 3, some 1, some 0, some 4⟩]
      = Except.error "LoadError"
  ∧ load_data [⟨some "China (CHN)", .num 2018, some 3, some 1, some 0, some 4⟩]
      = Except.ok
          ((dropAllEmpty
              [⟨some "China (CHN)", .num 2018, some 3, some 1, some 0, some 4⟩]).map
            normalizeRow) :=
  ⟨(year_coercion
      [⟨some "China (CHN)", .text "20l8", some 3, some 1, some 0, some 4⟩]).1.mp
      (by decide),
   ((year_coercion
      [⟨some "China (CHN)", .num 2018, some 3, some 1, some 0, some 4⟩]).2
      (by decide)).1⟩

/-- C9. Malformed NOC handling: when every retained year converts, a
retained row whose `NOC` does not match the parenthesis pattern (or is
absent) does not make the load fail; its derived country is undefined,
it matches no country-filter selection, it belongs to no country group
of the country-keyed views, yet it remains present in the canonical
table. -/
theorem malformed_noc (rs : List RawRow) (w : RawRow)
    (hw : w ∈ dropAllEmpty rs)
    (hnoc : w.noc.bind extractCountry = none)
    (hyears : ∀ r ∈ dropAllEmpty rs, (parseYearCell r.year).isSome = true) :
    load_data rs = Except.ok ((dropAllEmpty rs).map normalizeRow)
  ∧ (normalizeRow w).country = none
  ∧ normalizeRow w ∈ (dropAllEmpty rs).map normalizeRow
  ∧ (∀ S : Selection,
      normalizeRow w ∉ filtered_df ((dropAllEmpty rs).map normalizeRow) S)
  ∧ (∀ c : String, inGroup c (normalizeRow w) = false) := by
  have hcountry : (normalizeRow w).country = none := hnoc
  refine ⟨((year_coercion rs).2 hyears).1, hcountry,
    List.mem_map_of_mem normalizeRow hw, ?_, ?_⟩
  · intro S hmem
    rw [filtered_df, List.mem_filter] at hmem
    have := (matchesSel_eq_true_iff S (normalizeRow w)).mp hmem.2
    obtain ⟨-, c, hc, -⟩ := this
    rw [hcountry] at hc
    exact Option.noConfusion hc
  · intro c
    rw [inGroup, hcountry]
    simp

/-- Witness for C9 on a concrete table containing one well-formed and one
malformed NOC. -/
theorem malformed_noc_witness :
    load_data
      [⟨some "China (CHN)", .num 2018, some 3, some 1, some 0, some 4⟩,
       ⟨some "Refugee Team", .num 2018, some 0, some 0, some 0, some 0⟩]
      = Except.ok
          ((dropAllEmpty
              [⟨some "China (CHN)", .num 2018, some 3, some 1, some 0, some 4⟩,
               ⟨some "Refugee Team", .num 2018, some 0, some 0, some 0, some 0⟩]).map
            normalizeRow)
  ∧ (normalizeRow ⟨some "Refugee Team", .num 2018, some 0, some 0, some 0, some 0⟩).country
      = none :=
  ⟨(malformed_noc
      [⟨some "China (CHN)", .num 2018, some 3, some 1, some 0, some 4⟩,
       ⟨some "Refugee Team", .num 2018, some 0, some 0, some 0, some 0⟩]
      ⟨some "Refugee Team", .num 2018, some 0, some 0, some 0, some 0⟩
      (by decide) (by decide) (by decide)).1,
   (malformed_noc
      [⟨some "China (CHN)", .num 2018, some 3, some 1, some 0, some 4⟩,
       ⟨some "Refugee Team", .num 2018, some 0, some 0, some 0, some 0⟩]
      ⟨some "Refugee Team", .num 2018, some 0, some 0, some 0, some 0⟩
      (by decide) (by decide) (by decide)).2.1⟩

/-- Reference formalisation of the claim's wording for the country rule:
"all characters before the first literal `\x22 (\x22` substring" —
scan for the first space-then-`(` pair and return the prefix before it. -/
def beforeSpaceParenAux : List Char → List Char → Option (List Char)
  | acc, c1 :: c2 :: rest =>
    if c1 == ' ' && c2 == '(' then some acc.reverse
    else beforeSpaceParenAux (c1 :: acc) (c2 :: rest)
  | _, _ => none

/-- The claim's stated derivation rule: the text before the first `" ("`. -/
def specCountryBeforeParen (s : String) : Option String :=
  (beforeSpaceParenAux [] s.data).map String.mk

/-- C7 counterexample: for `NOC = "A\t(B) (C)"` — of the form `X (YYY)`
with `X = "A\t(B)"` — the code's regex `^(.*?)\s\(` stops at the first
whitespace-then-`(` pair (`\s` also matches the tab), deriving `"A"`,
while the claim's rule "all characters before the first literal `" ("`
substring" gives `"A\t(B)"`. -/
theorem country_rule_counterexample :
    extractCountry "A\t(B) (C)" = some "A"
  ∧ specCountryBeforeParen "A\t(B) (C)" = some "A\t(B)"
  ∧ extractCountry "A\t(B) (C)" ≠ specCountryBeforeParen "A\t(B) (C)" := by
  refine ⟨by decide, by decide, by decide⟩

/-- `X` is a clean country prefix: it contains no newline and no whitespace
character (in the `\s` sense of `isSpaceChar`, Unicode whitespace
included) immediately followed by `(` — the cases where the regex engine
would stop early or fail inside `X`. -/
def cleanPrefix : List Char → Bool
  | c1 :: c2 :: rest =>
    !(isSpaceChar c1 && c2 == '(') && !(c1 == '\n') && cleanPrefix (c2 :: rest)
  | [c] => !(c == '\n')
  | [] => true

/-- The regex scan on `xs ++ ' ' :: '(' :: tail` captures `xs` when no
earlier whitespace-`(` pair or newline interferes. -/
lemma extractAux_clean (xs : List Char) (acc tail : List Char)
    (h : cleanPrefix xs = true) :
    extractAux acc (xs ++ ' ' :: '(' :: tail) = some (acc.reverse ++ xs) := by
  induction xs generalizing acc with
  | nil =>
    rw [List.nil_append, extractAux, if_pos (by decide)]
    simp
  | cons c cs ih =>
    cases cs with
    | nil =>
      rw [cleanPrefix, Bool.not_eq_true'] at h
      rw [List.cons_append, List.nil_append, extractAux]
      rw [if_neg (by rw [show ((' ' : Char) == '(') = false from by decide,
        Bool.and_false]; simp)]
      rw [if_neg (by rw [h]; simp)]
      rw [extractAux, if_pos (by decide)]
      simp
    | cons c2 cs2 =>
      rw [cleanPrefix, Bool.and_eq_true, Bool.and_eq_true,
        Bool.not_eq_true', Bool.not_eq_true'] at h
      obtain ⟨⟨h1, h2⟩, h3⟩ := h
      rw [List.cons_append, List.cons_append, extractAux]
      rw [if_neg (by rw [h1]; simp)]
      rw [if_neg (by rw [h2]; simp)]
      rw [← List.cons_append, ih (c :: acc) h3]
      simp

/-- C7 amended: the derived country is the text before the first
whitespace-character-followed-by-`(` occurrence (with `\s` covering tab,
newline and the Unicode whitespace characters such as U+00A0, per
`isSpaceChar`), not before the first literal `" ("`; in particular
for every `NOC` of the form `X ++ " (" ++ rest` where `X` contains no
newline and no whitespace-then-`(` pair, the derived country is exactly
`X`. The derivation `extractCountry` is a pure function of the `NOC`
string. -/
theorem country_extract_amended (X rest : String)
    (h : cleanPrefix X.data = true) :
    extractCountry (X ++ " (" ++ rest) = some X := by
  rw [extractCountry, String.data_append, String.data_append]
  rw [show (" (" : String).data = [' ', '('] from rfl]
  rw [List.append_assoc, List.cons_append, List.cons_append, List.nil_append]
  rw [extractAux_clean X.data [] rest.data h]
  rfl

/-- Witness for C7's amended rule on a well-formed NOC. -/
theorem country_extract_amended_witness :
    extractCountry ("China" ++ " (" ++ "CHN)") = some "China" :=
  country_extract_amended "China" "CHN)" (by decide)
